import Mathlib

/-!
Verification of the Playground search proxy handler (index.ts).

The handler is embedded shallowly: JSON values are an inductive type,
JavaScript property access / truthiness / `encodeURIComponent` /
`JSON.stringify` are modelled as executable functions, exceptions are the
`Except Unit` monad, and the outbound `fetch` is a parameter of type
`Except Unit Json` (the upstream body already parsed, or a thrown error).
The `console.error` side effect is modelled by threading a `World` holding
the log; the outbound call is reported as the requested URL, when made.
-/

namespace PlaygroundSearch

mutual

/-- JSON values as produced by `response.json()`.  Mutual lists are used for
array elements and object fields so that all recursions are structural.
Numbers are modelled as integers: the only numbers the handler inspects are
array lengths. -/
inductive Json : Type where
  | null : Json
  | bool (b : Bool) : Json
  | num (n : Int) : Json
  | str (s : String) : Json
  | arr (elems : JsonList) : Json
  | obj (fields : JsonFields) : Json

/-- Elements of a JSON array. -/
inductive JsonList : Type where
  | nil : JsonList
  | cons (hd : Json) (tl : JsonList) : JsonList

/-- Key-value fields of a JSON object. -/
inductive JsonFields : Type where
  | nil : JsonFields
  | fcons (key : String) (val : Json) (tl : JsonFields) : JsonFields

end

/-- Field lookup in a parsed JSON object.  `JSON.parse` collapses duplicate
keys, so parsed objects are duplicate-free and first-match lookup agrees
with JavaScript property access. -/
def lookupField : JsonFields → String → Option Json
  | .nil, _ => none
  | .fcons k v tl, key => if k = key then some v else lookupField tl key

/-- JavaScript property read on a defined value: objects yield the field or
`undefined` (`none`); primitives and arrays have none of the properties the
handler reads (`pageProps`, `data`, `title`, `prompt`, `user`,
`displayName`, `url`, `0`), hence `undefined`. -/
def jsField : Json → String → Option Json
  | .obj fields, key => lookupField fields key
  | _, _ => none

/-- JavaScript property access `v.key` where `v` may be `undefined`
(`none`): on `undefined` and on `null` it throws a `TypeError`, otherwise
it returns `jsField`. -/
def jsGet : Option Json → String → Except Unit (Option Json)
  | none, _ => .error ()
  | some .null, _ => .error ()
  | some j, key => .ok (jsField j key)

/-- JavaScript truthiness of a defined value. -/
def truthyJ : Json → Bool
  | .null => false
  | .bool b => b
  | .num n => n != 0
  | .str s => s != ""
  | .arr _ => true
  | .obj _ => true

/-- Length of a JSON array's element list. -/
def jsonListLength : JsonList → Nat
  | .nil => 0
  | .cons _ tl => jsonListLength tl + 1

/-- JavaScript `.length` on a truthy value: arrays and strings have a
numeric length, objects may carry a `length` field, other primitives give
`undefined`. -/
def jsLength : Json → Option Json
  | .arr elems => some (.num (jsonListLength elems))
  | .str s => some (.num s.length)
  | .obj fields => lookupField fields "length"
  | _ => none

/-- JavaScript comparison `v > 0` where `v` may be `undefined`.
`undefined` and objects coerce to NaN (comparison false), `null` to 0,
booleans to 0/1, strings via numeric parsing (non-numeric strings are NaN;
fractional and array coercions do not occur in the handler, where the
compared value is an array or string length or a `length` field). -/
def jsGtZero : Option Json → Bool
  | none => false
  | some .null => false
  | some (.bool b) => b
  | some (.num n) => decide (0 < n)
  | some (.str s) =>
      match s.trim.toInt? with
      | some n => decide (0 < n)
      | none => false
  | some (.arr _) => false
  | some (.obj _) => false

/-- Head of a JSON array's element list. -/
def jsonListHead : JsonList → Option Json
  | .nil => none
  | .cons hd _ => some hd

/-- JavaScript indexing `v[0]` on a truthy value: first array element,
first character of a string, or an object's `"0"` property; `undefined`
otherwise. -/
def jsIndex0 : Json → Option Json
  | .arr elems => jsonListHead elems
  | .str s => if s.isEmpty then none else some (.str (String.singleton s.front))
  | .obj fields => lookupField fields "0"
  | _ => none

/-- JavaScript `a || b` specialised to a possibly-undefined left operand:
the left value when truthy, otherwise the default. -/
def jsOr (v : Option Json) (dflt : Json) : Json :=
  match v with
  | some j => if truthyJ j then j else dflt
  | none => dflt

/-- Characters `encodeURIComponent` leaves unescaped: ASCII alphanumerics
and `- _ . ! ~ * ' ( )` (39 is the apostrophe code point). -/
def isUnreservedChar (c : Char) : Bool :=
  c.isAlphanum || c = '-' || c = '_' || c = '.' || c = '!' || c = '~' ||
    c = '*' || c.toNat == 39 || c = '(' || c = ')'

/-- UTF-8 bytes of a Unicode scalar value. -/
def utf8Bytes (c : Char) : List Nat :=
  let n := c.toNat
  if n < 128 then [n]
  else if n < 2048 then [192 + n / 64, 128 + n % 64]
  else if n < 65536 then [224 + n / 4096, 128 + n / 64 % 64, 128 + n % 64]
  else [240 + n / 262144, 128 + n / 4096 % 64, 128 + n / 64 % 64, 128 + n % 64]

/-- Uppercase hexadecimal digit. -/
def hexUpper (n : Nat) : Char :=
  if n < 10 then Char.ofNat (48 + n) else Char.ofNat (55 + n)

/-- Percent-encoding `%XX` of one byte, uppercase hex as produced by
`encodeURIComponent`. -/
def percentByte (b : Nat) : String :=
  String.singleton '%' ++ String.singleton (hexUpper (b / 16)) ++
    String.singleton (hexUpper (b % 16))

/-- JavaScript `encodeURIComponent`: unreserved characters kept, every
other character percent-encoded byte by byte in UTF-8. -/
def encodeURIComponent (s : String) : String :=
  String.join (s.toList.map (fun c =>
    if isUnreservedChar c then String.singleton c
    else String.join ((utf8Bytes c).map percentByte)))

/-- Lowercase hexadecimal digit. -/
def hexLower (n : Nat) : Char :=
  if n < 10 then Char.ofNat (48 + n) else Char.ofNat (87 + n)

/-- `JSON.stringify` escaping of one character (34 is the double quote, 92
the backslash; control characters get `\b \t \n \f \r` or `\u00XX`). -/
def jsonEscapeChar (c : Char) : String :=
  if c.toNat = 34 then "\\\""
  else if c.toNat = 92 then "\\\\"
  else if c.toNat = 8 then "\\b"
  else if c.toNat = 9 then "\\t"
  else if c.toNat = 10 then "\\n"
  else if c.toNat = 12 then "\\f"
  else if c.toNat = 13 then "\\r"
  else if c.toNat < 32 then
    "\\u00" ++ String.singleton (hexLower (c.toNat / 16)) ++
      String.singleton (hexLower (c.toNat % 16))
  else String.singleton c

/-- `JSON.stringify` quoting of a string. -/
def jsonEscapeString (s : String) : String :=
  "\"" ++ String.join (s.toList.map jsonEscapeChar) ++ "\""

mutual

/-- Serialisation of a defined JSON value, as `JSON.stringify` produces
it. -/
def jsonStringify : Json → String
  | .null => "null"
  | .bool b => if b then "true" else "false"
  | .num n => toString n
  | .str s => jsonEscapeString s
  | .arr elems => "[" ++ stringifyElems elems ++ "]"
  | .obj fields => "\x7b" ++ stringifyObjFields fields ++ "\x7d"

/-- Comma-separated serialisation of array elements. -/
def stringifyElems : JsonList → String
  | .nil => ""
  | .cons hd .nil => jsonStringify hd
  | .cons hd tl => jsonStringify hd ++ "," ++ stringifyElems tl

/-- Comma-separated serialisation of object fields. -/
def stringifyObjFields : JsonFields → String
  | .nil => ""
  | .fcons k v .nil => jsonEscapeString k ++ ":" ++ jsonStringify v
  | .fcons k v tl =>
      jsonEscapeString k ++ ":" ++ jsonStringify v ++ "," ++ stringifyObjFields tl

end

/-- `JSON.stringify` drops object fields whose value is `undefined`. -/
def undefFilter : List (String × Option Json) → List (String × Json)
  | [] => []
  | (_, none) :: rest => undefFilter rest
  | (k, some v) :: rest => (k, v) :: undefFilter rest

/-- Comma-separated serialisation of already-defined fields. -/
def joinFields : List (String × Json) → String
  | [] => ""
  | [(k, v)] => jsonEscapeString k ++ ":" ++ jsonStringify v
  | (k, v) :: rest =>
      jsonEscapeString k ++ ":" ++ jsonStringify v ++ "," ++ joinFields rest

/-- `JSON.stringify` of an object literal whose field values may be
`undefined`: such keys are omitted entirely. -/
def stringifyShaped (fields : List (String × Option Json)) : String :=
  "\x7b" ++ joinFields (undefFilter fields) ++ "\x7d"

/-- An inbound request: method, `url.pathname`, and the decoded
`url.searchParams.get("q")` (`none` when the parameter is absent). -/
structure Request where
  method : String
  path : String
  q : Option String
deriving DecidableEq

/-- A `Response`: status, body, and the explicitly set `Content-Type`
header (`none` when the handler sets no headers). -/
structure Response where
  status : Nat
  body : String
  contentType : Option String
deriving DecidableEq

/-- The ambient mutable world: the `console.error` log. -/
structure World where
  log : List String
deriving DecidableEq

/-- Body of the 404 no-results message with the raw query interpolated. -/
def noResultsMsg (query : String) : String :=
  "No results found for \"" ++ query ++ "\"."

/-- A serialised one-field error object. -/
def errBody (msg : String) : String :=
  jsonStringify (.obj (.fcons "error" (.str msg) .nil))

/-- Body of the 400 missing-query response. -/
def missingQueryBody : String := errBody "Please provide a search query."

/-- Body of the 500 fault response. -/
def faultBody : String :=
  errBody "Sorry, an error occurred while fetching the search results."

/-- The fixed upstream endpoint; the query is appended percent-encoded. -/
def searchUrlBase : String :=
  "https://playground.com/_next/data/DKheFsybTy-HQ-Exsbzy9/search.json?q="

/-- The `console.error` line emitted on the fault path. -/
def errorLogLine : String := "Error fetching search results:"

/-- Field navigation `responseData.pageProps.data`. -/
def navigateData (responseData : Json) : Except Unit (Option Json) :=
  match jsGet (some responseData) "pageProps" with
  | .error e => .error e
  | .ok pageProps => jsGet pageProps "data"

/-- The success-object literal: `title` with the `|| "N/A"` default,
`prompt` verbatim, `user` read through the nested `user.displayName`
(throwing when `user` is `undefined` or `null`), `imageUrl` from `url`. -/
def shapeFirst (firstResult : Option Json) : Except Unit (List (String × Option Json)) :=
  match jsGet firstResult "title" with
  | .error e => .error e
  | .ok titleRaw =>
    match jsGet firstResult "prompt" with
    | .error e => .error e
    | .ok promptRaw =>
      match jsGet firstResult "user" with
      | .error e => .error e
      | .ok userRaw =>
        match jsGet userRaw "displayName" with
        | .error e => .error e
        | .ok displayName =>
          match jsGet firstResult "url" with
          | .error e => .error e
          | .ok urlRaw =>
            .ok [("title", some (jsOr titleRaw (Json.str "N/A"))),
                 ("prompt", promptRaw),
                 ("user", displayName),
                 ("imageUrl", urlRaw)]

/-- The `try` block: await the fetch and JSON parse, navigate to
`pageProps.data`, test `data && data.length > 0`, and produce either the
200 success response or the 404 no-results response; any thrown error
propagates to the `catch`. -/
def tryBlock (query : String) (upstream : Except Unit Json) : Except Unit Response :=
  match upstream with
  | .error e => .error e
  | .ok responseData =>
    match navigateData responseData with
    | .error e => .error e
    | .ok dataOpt =>
      match dataOpt with
      | none => .ok ⟨404, errBody (noResultsMsg query), none⟩
      | some dataJ =>
        if truthyJ dataJ && jsGtZero (jsLength dataJ) then
          match shapeFirst (jsIndex0 dataJ) with
          | .error e => .error e
          | .ok fields => .ok ⟨200, stringifyShaped fields, some "application/json"⟩
        else
          .ok ⟨404, errBody (noResultsMsg query), none⟩

/-- The request handler of index.ts.  Returns the response, the outbound
URL when a fetch was issued, and the updated world (the log grows by one
line exactly on the catch path). -/
def handler (request : Request) (upstream : Except Unit Json) (w : World) :
    Response × Option String × World :=
  if request.path = "/search" then
    match request.q with
    | none => (⟨400, missingQueryBody, none⟩, none, w)
    | some query =>
      if query = "" then (⟨400, missingQueryBody, none⟩, none, w)
      else
        let searchUrl := searchUrlBase ++ encodeURIComponent query
        match tryBlock query upstream with
        | .ok response => (response, some searchUrl, w)
        | .error _ =>
            (⟨500, faultBody, none⟩, some searchUrl, ⟨w.log ++ [errorLogLine]⟩)
  else
    (⟨404, "Not Found", none⟩, none, w)

/-! Concrete requests, upstream bodies and worlds used by the witnesses. -/

/-- An empty log. -/
def w0 : World := ⟨[]⟩

/-- A user object carrying a `displayName`. -/
def userFull : Json := .obj (.fcons "displayName" (.str "U") .nil)

/-- A first result with every field present. -/
def firstFull : Json :=
  .obj (.fcons "title" (.str "T") (.fcons "prompt" (.str "P")
    (.fcons "user" userFull (.fcons "url" (.str "http://x") .nil))))

/-- An upstream body whose data array holds `firstFull`. -/
def rdFull : Json :=
  .obj (.fcons "pageProps" (.obj (.fcons "data" (.arr (.cons firstFull .nil)) .nil)) .nil)

/-- A successful fetch of `rdFull`. -/
def upstreamFull : Except Unit Json := .ok rdFull

/-- An upstream body with an empty data array. -/
def rdNoResults : Json :=
  .obj (.fcons "pageProps" (.obj (.fcons "data" (.arr .nil) .nil)) .nil)

/-- A successful fetch of `rdNoResults`. -/
def upstreamNoResults : Except Unit Json := .ok rdNoResults

/-- An upstream body with no `pageProps` field at all. -/
def upstreamNoPageProps : Except Unit Json := .ok (.obj .nil)

/-- A first result whose `user` object is absent. -/
def firstNoUser : Json := .obj (.fcons "title" (.str "T") .nil)

/-- A successful fetch whose only result lacks the `user` object. -/
def upstreamNoUser : Except Unit Json :=
  .ok (.obj (.fcons "pageProps"
    (.obj (.fcons "data" (.arr (.cons firstNoUser .nil)) .nil)) .nil))

/-- A first result with an empty `title` and neither `prompt` nor `url`. -/
def firstSparse : Json := .obj (.fcons "title" (.str "") (.fcons "user" userFull .nil))

/-- A successful fetch whose only result is `firstSparse`. -/
def upstreamSparse : Except Unit Json :=
  .ok (.obj (.fcons "pageProps"
    (.obj (.fcons "data" (.arr (.cons firstSparse .nil)) .nil)) .nil))

/-! Helper lemmas. -/

/-- Property access on a defined non-null value does not throw. -/
theorem jsGet_some_of_ne_null (j : Json) (hj : j ≠ .null) (key : String) :
    jsGet (some j) key = .ok (jsField j key) := by
  cases j with
  | null => exact absurd rfl hj
  | bool b => rfl
  | num n => rfl
  | str s => rfl
  | arr elems => rfl
  | obj fields => rfl

/-- When the success-object literal evaluates without throwing, its fields
are exactly `title`, `prompt`, `user`, `imageUrl`, in that order. -/
theorem shapeFirst_ok_shape (fr : Option Json) (fs : List (String × Option Json))
    (h : shapeFirst fr = .ok fs) :
    ∃ t p u i, fs = [("title", some t), ("prompt", p), ("user", u), ("imageUrl", i)] := by
  unfold shapeFirst at h
  repeat' split at h
  all_goals cases h
  exact ⟨_, _, _, _, rfl⟩

/-- Every normal completion of the `try` block is either the 200 success
response with the four-field shaped body or the 404 no-results response. -/
theorem tryBlock_ok_shape (query : String) (up : Except Unit Json) (r : Response)
    (h : tryBlock query up = .ok r) :
    (∃ t p u i, r = ⟨200, stringifyShaped
        [("title", some t), ("prompt", p), ("user", u), ("imageUrl", i)],
        some "application/json"⟩) ∨
    r = ⟨404, errBody (noResultsMsg query), none⟩ := by
  unfold tryBlock at h
  repeat' split at h
  all_goals cases h
  all_goals try exact Or.inr rfl
  rename_i hs
  obtain ⟨t, p, u, i, rfl⟩ := shapeFirst_ok_shape _ _ hs
  exact Or.inl ⟨t, p, u, i, rfl⟩

/-- On `/search` with a non-empty query the handler is the `try`/`catch`
around the single fetch of the encoded upstream URL. -/
theorem handler_query_eq (req : Request) (up : Except Unit Json) (w : World)
    (query : String)
    (hp : req.path = "/search") (hq : req.q = some query) (hne : query ≠ "") :
    handler req up w =
      (match tryBlock query up with
       | .ok response =>
           (response, some (searchUrlBase ++ encodeURIComponent query), w)
       | .error _ =>
           (⟨500, faultBody, none⟩,
            some (searchUrlBase ++ encodeURIComponent query),
            ⟨w.log ++ [errorLogLine]⟩)) := by
  simp only [handler, hp, hq]
  simp [hne]

/-- On a nonempty data array with a non-null first element whose `user`
field holds a non-null object value, the handler returns the shaped 200
response. -/
theorem handler_success_eq (req : Request) (up : Except Unit Json) (w : World)
    (query : String) (rd first u : Json) (rest : JsonList)
    (hp : req.path = "/search") (hq : req.q = some query) (hne : query ≠ "")
    (hup : up = .ok rd)
    (hnav : navigateData rd = .ok (some (.arr (.cons first rest))))
    (hfn : first ≠ .null)
    (huser : jsField first "user" = some u) (hun : u ≠ .null) :
    (handler req up w).1 =
      ⟨200, stringifyShaped
        [("title", some (jsOr (jsField first "title") (.str "N/A"))),
         ("prompt", jsField first "prompt"),
         ("user", jsField u "displayName"),
         ("imageUrl", jsField first "url")],
       some "application/json"⟩ := by
  have hshape : shapeFirst (some first) =
      .ok [("title", some (jsOr (jsField first "title") (.str "N/A"))),
           ("prompt", jsField first "prompt"),
           ("user", jsField u "displayName"),
           ("imageUrl", jsField first "url")] := by
    simp only [shapeFirst, jsGet_some_of_ne_null first hfn, huser,
      jsGet_some_of_ne_null u hun]
  have hcond : (truthyJ (.arr (.cons first rest)) &&
      jsGtZero (jsLength (.arr (.cons first rest)))) = true := by
    simp [truthyJ, jsLength, jsGtZero, jsonListLength]
  have htry : tryBlock query up =
      .ok ⟨200, stringifyShaped
        [("title", some (jsOr (jsField first "title") (.str "N/A"))),
         ("prompt", jsField first "prompt"),
         ("user", jsField u "displayName"),
         ("imageUrl", jsField first "url")],
       some "application/json"⟩ := by
    subst hup
    simp [tryBlock, hnav, jsIndex0, jsonListHead, hshape, hcond]
  rw [handler_query_eq req up w query hp hq hne, htry]

/-- A serialised error object never equals the plain-text routing body:
its first character is an opening brace. -/
theorem errBody_ne_notFound (msg : String) : errBody msg ≠ "Not Found" := by
  intro h
  have hd := congrArg (fun s => s.data.head?) h
  simp [errBody, jsonStringify, String.data_append] at hd

/-! The claims. -/

/-- C1: for a `/search` request with a non-empty `q`, when the upstream
JSON's `pageProps.data` array exists with at least one element (whose
`user` field, as the claim presupposes by reading `user.displayName`, is a
present non-null value), the handler responds 200 with the
`Content-Type: application/json` header and the JSON body
`{title, prompt, user, imageUrl}`: `title` is the element's `title` field
or `"N/A"` when missing/falsy, `prompt` is copied verbatim, `user` is the
nested `displayName`, `imageUrl` is the `url` field. -/
theorem c1_success_response (req : Request) (up : Except Unit Json) (w : World)
    (query : String) (rd first u : Json) (rest : JsonList)
    (hp : req.path = "/search") (hq : req.q = some query) (hne : query ≠ "")
    (hup : up = .ok rd)
    (hnav : navigateData rd = .ok (some (.arr (.cons first rest))))
    (hfn : first ≠ .null)
    (huser : jsField first "user" = some u) (hun : u ≠ .null) :
    (handler req up w).1 =
      ⟨200, stringifyShaped
        [("title", some (jsOr (jsField first "title") (.str "N/A"))),
         ("prompt", jsField first "prompt"),
         ("user", jsField u "displayName"),
         ("imageUrl", jsField first "url")],
       some "application/json"⟩ :=
  handler_success_eq req up w query rd first u rest hp hq hne hup hnav hfn huser hun

/-- C1 witness: a fully populated first result produces the documented
200 response. -/
theorem c1_success_response_witness :
    (handler ⟨"GET", "/search", some "foo"⟩ upstreamFull w0).1 =
      ⟨200, stringifyShaped
        [("title", some (.str "T")), ("prompt", some (.str "P")),
         ("user", some (.str "U")), ("imageUrl", some (.str "http://x"))],
       some "application/json"⟩ :=
  c1_success_response ⟨"GET", "/search", some "foo"⟩ upstreamFull w0 "foo"
    rdFull firstFull userFull .nil rfl rfl (by decide) rfl rfl
    (fun h => Json.noConfusion h) rfl (fun h => Json.noConfusion h)

/-- C2 counterexample: the claim also promises 404 when `pageProps` itself
is absent, but there `responseData.pageProps.data` throws and the handler
responds 500, not 404. -/
theorem c2_pageprops_absent_counterexample :
    (handler ⟨"GET", "/search", some "foo"⟩ upstreamNoPageProps w0).1.status = 500 ∧
    ¬ (handler ⟨"GET", "/search", some "foo"⟩ upstreamNoPageProps w0).1.status = 404 :=
  ⟨rfl, by decide⟩

/-- C2 (amended): for a `/search` request with a non-empty `q`, whenever
the navigation `responseData.pageProps.data` evaluates without throwing
(`pageProps` present and non-null) to an absent value or an empty array,
the handler responds 404 with `{"error":"No results found for
\"<query>\"."}`, the query interpolated verbatim. -/
theorem c2_no_results (req : Request) (up : Except Unit Json) (w : World)
    (query : String) (rd : Json) (dataOpt : Option Json)
    (hp : req.path = "/search") (hq : req.q = some query) (hne : query ≠ "")
    (hup : up = .ok rd) (hnav : navigateData rd = .ok dataOpt)
    (hempty : dataOpt = none ∨ dataOpt = some (.arr .nil)) :
    (handler req up w).1 = ⟨404, errBody (noResultsMsg query), none⟩ := by
  have htry : tryBlock query up = .ok ⟨404, errBody (noResultsMsg query), none⟩ := by
    subst hup
    rcases hempty with rfl | rfl
    · simp [tryBlock, hnav]
    · simp [tryBlock, hnav, truthyJ, jsLength, jsGtZero, jsonListLength]
  rw [handler_query_eq req up w query hp hq hne, htry]

/-- C2 witness: an empty data array yields the 404 no-results response
with the raw query in the message. -/
theorem c2_no_results_witness :
    (handler ⟨"GET", "/search", some "foo"⟩ upstreamNoResults w0).1 =
      ⟨404, errBody (noResultsMsg "foo"), none⟩ :=
  c2_no_results ⟨"GET", "/search", some "foo"⟩ upstreamNoResults w0 "foo"
    rdNoResults (some (.arr .nil)) rfl rfl (by decide) rfl rfl (Or.inr rfl)

/-- C3: a `/search` request whose `q` is absent or empty yields status 400
with body `{"error":"Please provide a search query."}` and no outbound
call is made. -/
theorem c3_missing_query (req : Request) (up : Except Unit Json) (w : World)
    (hp : req.path = "/search") (hq : req.q = none ∨ req.q = some "") :
    (handler req up w).1 = ⟨400, missingQueryBody, none⟩ ∧
    (handler req up w).2.1 = none := by
  rcases hq with hq | hq <;> simp [handler, hp, hq]

/-- C3 witness: a request with no `q` parameter. -/
theorem c3_missing_query_witness :
    (handler ⟨"GET", "/search", none⟩ upstreamFull w0).1 =
      ⟨400, missingQueryBody, none⟩ ∧
    (handler ⟨"GET", "/search", none⟩ upstreamFull w0).2.1 = none :=
  c3_missing_query ⟨"GET", "/search", none⟩ upstreamFull w0 rfl (Or.inl rfl)

/-- C4: for a `/search` request with non-empty `q`, any exception in the
fetch, JSON parse or field navigation (the `try` block) produces status
500 with exactly the generic body — no internal detail — while the error
is logged; the exception never escapes the handler (it is total). -/
theorem c4_fault_path (req : Request) (up : Except Unit Json) (w : World)
    (query : String)
    (hp : req.path = "/search") (hq : req.q = some query) (hne : query ≠ "")
    (hexc : tryBlock query up = .error ()) :
    (handler req up w).1 = ⟨500, faultBody, none⟩ ∧
    (handler req up w).2.2.log = w.log ++ [errorLogLine] := by
  rw [handler_query_eq req up w query hp hq hne, hexc]
  exact ⟨rfl, rfl⟩

/-- C4 witness: a first result with no `user` object makes reading
`displayName` throw, and the handler answers with the generic 500 body. -/
theorem c4_fault_path_witness :
    (handler ⟨"GET", "/search", some "cat"⟩ upstreamNoUser w0).1 =
      ⟨500, faultBody, none⟩ ∧
    (handler ⟨"GET", "/search", some "cat"⟩ upstreamNoUser w0).2.2.log =
      w0.log ++ [errorLogLine] :=
  c4_fault_path ⟨"GET", "/search", some "cat"⟩ upstreamNoUser w0 "cat"
    rfl rfl (by decide) rfl

/-- C5: any request whose path is not exactly `/search` — whatever its
method and query — gets status 404 with the plain-text body `"Not Found"`
and no outbound call. -/
theorem c5_routing_miss (req : Request) (up : Except Unit Json) (w : World)
    (hp : req.path ≠ "/search") :
    (handler req up w).1 = ⟨404, "Not Found", none⟩ ∧
    (handler req up w).2.1 = none := by
  simp [handler, hp]

/-- C5 witness: a POST to the root path. -/
theorem c5_routing_miss_witness :
    (handler ⟨"POST", "/", some "x"⟩ upstreamFull w0).1 =
      ⟨404, "Not Found", none⟩ ∧
    (handler ⟨"POST", "/", some "x"⟩ upstreamFull w0).2.1 = none :=
  c5_routing_miss ⟨"POST", "/", some "x"⟩ upstreamFull w0 (by decide)

/-- C6: for a `/search` request with non-empty `q`, the outbound URL is
the fixed endpoint with the percent-encoded query appended, while any 404
response carries the no-results message with the raw, un-encoded query. -/
theorem c6_outbound_url (req : Request) (up : Except Unit Json) (w : World)
    (query : String)
    (hp : req.path = "/search") (hq : req.q = some query) (hne : query ≠ "") :
    (handler req up w).2.1 = some (searchUrlBase ++ encodeURIComponent query) ∧
    ((handler req up w).1.status = 404 →
      (handler req up w).1.body = errBody (noResultsMsg query)) := by
  rw [handler_query_eq req up w query hp hq hne]
  cases htry : tryBlock query up with
  | error e => exact ⟨rfl, fun h => by simp at h⟩
  | ok r =>
    refine ⟨rfl, ?_⟩
    rcases tryBlock_ok_shape query up r htry with ⟨t, p, u, i, rfl⟩ | rfl
    · intro h; simp at h
    · intro _; rfl

/-- C6 witness: the query `a b` reaches the outbound URL as `a%20b` but
the 404 message verbatim. -/
theorem c6_outbound_url_witness :
    ((handler ⟨"GET", "/search", some "a b"⟩ upstreamNoResults w0).2.1 =
      some (searchUrlBase ++ "a%20b") ∧
    ((handler ⟨"GET", "/search", some "a b"⟩ upstreamNoResults w0).1.status = 404 →
      (handler ⟨"GET", "/search", some "a b"⟩ upstreamNoResults w0).1.body =
        errBody (noResultsMsg "a b"))) ∧
    encodeURIComponent "a b" = "a%20b" :=
  ⟨c6_outbound_url ⟨"GET", "/search", some "a b"⟩ upstreamNoResults w0 "a b"
    rfl rfl (by decide), by decide⟩

/-- The 200 success variant: the four-key shaped body. -/
def IsSuccessShape (r : Response) : Prop :=
  r.status = 200 ∧ ∃ t p u i, r.body = stringifyShaped
    [("title", some t), ("prompt", p), ("user", u), ("imageUrl", i)]

/-- The 404 no-results variant. -/
def IsNoResultsShape (r : Response) : Prop :=
  r.status = 404 ∧ ∃ q, r.body = errBody (noResultsMsg q)

/-- The client/server error variant. -/
def IsErrorShape (r : Response) : Prop :=
  (r.status = 400 ∨ r.status = 500) ∧ ∃ msg, r.body = errBody msg

/-- One of the three documented JSON response variants. -/
def IsProxyVariant (r : Response) : Prop :=
  IsSuccessShape r ∨ IsNoResultsShape r ∨ IsErrorShape r

/-- C7 counterexample: the claim quantifies over every inbound request,
but a request off `/search` gets the plain-text `"Not Found"` body, which
is none of the three JSON variants. -/
theorem c7_plaintext_counterexample :
    ¬ IsProxyVariant ((handler ⟨"GET", "/other", some "x"⟩ upstreamFull w0).1) := by
  have hr : (handler ⟨"GET", "/other", some "x"⟩ upstreamFull w0).1 =
      ⟨404, "Not Found", none⟩ := rfl
  rw [hr]
  rintro (⟨hs, -⟩ | ⟨-, q, hb⟩ | ⟨hs, -⟩)
  · exact absurd hs (by decide)
  · exact absurd hb.symm (errBody_ne_notFound (noResultsMsg q))
  · rcases hs with hs | hs <;> exact absurd hs (by decide)

/-- C7 (amended): for every request to `/search`, every code path returns
one of the three JSON variants — success, no-results, or error — with its
matching status code; requests to other paths take the plain-text routing
miss instead. -/
theorem c7_search_variants (req : Request) (up : Except Unit Json) (w : World)
    (hp : req.path = "/search") :
    IsProxyVariant ((handler req up w).1) := by
  cases hq : req.q with
  | none =>
    have hr : (handler req up w).1 = ⟨400, missingQueryBody, none⟩ := by
      simp [handler, hp, hq]
    rw [hr]
    exact Or.inr (Or.inr ⟨Or.inl rfl, "Please provide a search query.", rfl⟩)
  | some query =>
    by_cases hne : query = ""
    · subst hne
      have hr : (handler req up w).1 = ⟨400, missingQueryBody, none⟩ := by
        simp [handler, hp, hq]
      rw [hr]
      exact Or.inr (Or.inr ⟨Or.inl rfl, "Please provide a search query.", rfl⟩)
    · rw [handler_query_eq req up w query hp hq hne]
      cases htry : tryBlock query up with
      | error e =>
        exact Or.inr (Or.inr ⟨Or.inr rfl,
          "Sorry, an error occurred while fetching the search results.", rfl⟩)
      | ok r =>
        rcases tryBlock_ok_shape query up r htry with ⟨t, p, u, i, rfl⟩ | rfl
        · exact Or.inl ⟨rfl, t, p, u, i, rfl⟩
        · exact Or.inr (Or.inl ⟨rfl, query, rfl⟩)

/-- C7 witness: the missing-query path lands in a variant. -/
theorem c7_search_variants_witness :
    IsProxyVariant ((handler ⟨"GET", "/search", none⟩ upstreamFull w0).1) :=
  c7_search_variants ⟨"GET", "/search", none⟩ upstreamFull w0 rfl

/-- C8: the handler is deterministic and stateless — its response and its
outbound call do not depend on the ambient world, it retains nothing (the
world is returned with at most an appended log line), and its only side
effects are the single optional outbound call and the one error-log line
emitted exactly on the 500 fault path. -/
theorem c8_stateless_deterministic (req : Request) (up : Except Unit Json)
    (w w' : World) :
    (handler req up w).1 = (handler req up w').1 ∧
    (handler req up w).2.1 = (handler req up w').2.1 ∧
    ∃ newLines, (handler req up w).2.2.log = w.log ++ newLines ∧
      (newLines = [] ∨
        (newLines = [errorLogLine] ∧ (handler req up w).1.status = 500)) := by
  by_cases hp : req.path = "/search"
  · cases hq : req.q with
    | none =>
      simp only [handler, hp, hq]
      exact ⟨by simp, by simp, [], by simp, Or.inl rfl⟩
    | some query =>
      by_cases hne : query = ""
      · subst hne
        simp only [handler, hp, hq]
        exact ⟨by simp, by simp, [], by simp, Or.inl rfl⟩
      · rw [handler_query_eq req up w query hp hq hne,
            handler_query_eq req up w' query hp hq hne]
        cases htry : tryBlock query up with
        | ok r => exact ⟨rfl, rfl, [], by simp, Or.inl rfl⟩
        | error e => exact ⟨rfl, rfl, [errorLogLine], rfl, Or.inr ⟨rfl, rfl⟩⟩
  · simp only [handler, hp]
    exact ⟨by simp, by simp, [], by simp, Or.inl rfl⟩

/-- C9: only the 200 success response carries an explicit
`Content-Type: application/json` header; the 400, 404 and 500 responses
set no header at all. -/
theorem c9_content_type (req : Request) (up : Except Unit Json) (w : World) :
    (handler req up w).1.contentType =
      (if (handler req up w).1.status = 200 then some "application/json"
       else none) := by
  by_cases hp : req.path = "/search"
  · cases hq : req.q with
    | none => simp [handler, hp, hq]
    | some query =>
      by_cases hne : query = ""
      · subst hne; simp [handler, hp, hq]
      · rw [handler_query_eq req up w query hp hq hne]
        cases htry : tryBlock query up with
        | error e => simp
        | ok r =>
          rcases tryBlock_ok_shape query up r htry with ⟨t, p, u, i, rfl⟩ | rfl <;>
            simp
  · simp [handler, hp]

/-- C10: under the C1 situation, when the first result's `prompt` (resp.
`url`) field is absent the shaped property is `undefined` and
serialisation omits the key entirely: the 200 body equals the
serialisation of the object without any `prompt` (resp. `imageUrl`)
key. -/
theorem c10_undefined_omitted (req : Request) (up : Except Unit Json) (w : World)
    (query : String) (rd first u : Json) (rest : JsonList)
    (hp : req.path = "/search") (hq : req.q = some query) (hne : query ≠ "")
    (hup : up = .ok rd)
    (hnav : navigateData rd = .ok (some (.arr (.cons first rest))))
    (hfn : first ≠ .null)
    (huser : jsField first "user" = some u) (hun : u ≠ .null) :
    (jsField first "prompt" = none →
      (handler req up w).1.body = stringifyShaped
        [("title", some (jsOr (jsField first "title") (.str "N/A"))),
         ("user", jsField u "displayName"),
         ("imageUrl", jsField first "url")]) ∧
    (jsField first "url" = none →
      (handler req up w).1.body = stringifyShaped
        [("title", some (jsOr (jsField first "title") (.str "N/A"))),
         ("prompt", jsField first "prompt"),
         ("user", jsField u "displayName")]) := by
  have h := handler_success_eq req up w query rd first u rest
    hp hq hne hup hnav hfn huser hun
  constructor
  · intro hprompt
    rw [h]
    simp [stringifyShaped, hprompt, undefFilter]
  · intro hurl
    rw [h]
    rcases jsField first "prompt" with _ | pv <;>
      rcases jsField u "displayName" with _ | dv <;>
        simp [stringifyShaped, hurl, undefFilter]

/-- C10 witness: a first result with empty `title`, no `prompt` and no
`url` serialises with neither a `prompt` nor an `imageUrl` key (and the
falsy title defaulted to `"N/A"`). -/
theorem c10_undefined_omitted_witness :
    (handler ⟨"GET", "/search", some "x"⟩ upstreamSparse w0).1.body =
      stringifyShaped
        [("title", some (.str "N/A")), ("user", some (.str "U")),
         ("imageUrl", none)] :=
  (c10_undefined_omitted ⟨"GET", "/search", some "x"⟩ upstreamSparse w0 "x"
    (.obj (.fcons "pageProps"
      (.obj (.fcons "data" (.arr (.cons firstSparse .nil)) .nil)) .nil))
    firstSparse userFull .nil rfl rfl (by decide) rfl rfl
    (fun h => Json.noConfusion h) rfl (fun h => Json.noConfusion h)).1 rfl

end PlaygroundSearch
